import Mathlib

/-!
Shallow embedding of `src/tray.rs` (the tray menu of the instantreplay /
TrayPlay application) together with proofs about its menu-to-configuration
binding protocol: how option groups are rendered, how a selection is
reconciled with the configuration store, how persistence is ordered with
respect to the write lock, and how menu actions dispatch events.
-/

namespace TrayPlay

/-- Modelled from the spec: recording quality enumeration
(`config::Quality`, referenced from tray.rs lines 248-251), compared by
value equality. -/
inductive Quality where
  | Medium
  | High
  | VeryHigh
  | Ultra
deriving DecidableEq, Repr

/-- Modelled from the spec: container format enumeration
(`config::Container`, referenced from tray.rs lines 262-265), compared by
value equality. -/
inductive Container where
  | MKV
  | MP4
  | WEBM
  | FLV
deriving DecidableEq, Repr

/-- Modelled from the spec: the shared configuration record
(`config::Config`): `framerate` and `replay_duration_secs` are integers,
`quality` and `container` are the enumerations above, plus an output-path
field of external type (modelled as a string). -/
structure Config where
  framerate : Nat
  replay_duration_secs : Nat
  quality : Quality
  container : Container
  replay_folder : String
deriving DecidableEq, Repr

/-- Embeds `TrayMultipleOption<T>(String, T)` (tray.rs line 33): a display
label paired with the strongly typed value it stands for. -/
structure TrayMultipleOption (α : Type) where
  label : String
  value : α
deriving DecidableEq, Repr

/-- Embeds the `initial_state` computation of the `tray_config_item_radio`
item constructor (tray.rs lines 157-163):
`values.iter().position(|element| element.1 == config.key).unwrap_or(values.len())`.
A linear scan for the first option whose value equals the current
configuration value, defaulting to the length of the option list. -/
def initial_state {α : Type} [DecidableEq α]
    (values : List (TrayMultipleOption α)) (current : α) : Nat :=
  (values.findIdx? (fun element => element.value == current)).getD values.length

/-- The framerate option list built in `TrayIcon::menu` (tray.rs lines 222-225). -/
def framerateValues : List (TrayMultipleOption Nat) :=
  [⟨"30", 30⟩, ⟨"60", 60⟩]

/-- The replay-duration option list built in `TrayIcon::menu` (tray.rs lines 233-239). -/
def durationValues : List (TrayMultipleOption Nat) :=
  [⟨"30s", 30⟩, ⟨"1min", 60⟩, ⟨"2min", 120⟩, ⟨"3min", 180⟩, ⟨"5min", 300⟩]

/-- The quality option list built in `TrayIcon::menu` (tray.rs lines 247-252). -/
def qualityValues : List (TrayMultipleOption Quality) :=
  [⟨"Medium", .Medium⟩, ⟨"High", .High⟩, ⟨"Very high", .VeryHigh⟩, ⟨"Ultra", .Ultra⟩]

/-- The container option list built in `TrayIcon::menu` (tray.rs lines 261-266). -/
def containerValues : List (TrayMultipleOption Container) :=
  [⟨"MKV", .MKV⟩, ⟨"MP4", .MP4⟩, ⟨"WEBM", .WEBM⟩, ⟨"FLV", .FLV⟩]

/-- Specification-side definition, written from the claim's words: the
index of the first entry whose value equals the current configuration
value, and one past the last entry when no entry matches. Used only to be
compared against `initial_state`, which is translated from the source. -/
def specFirstMatchIndex {α : Type} [DecidableEq α] :
    List (TrayMultipleOption α) → α → Nat
  | [], _ => 0
  | e :: rest, current =>
      if e.value = current then 0 else specFirstMatchIndex rest current + 1

/-- Events observed while a tray callback or the menu builder runs, in
program order: lock operations on the shared `RwLock<Config>`, field
assignment, the awaited `config.save()` call, the custom-number prompt,
error logging, per-field reads through the read guard, and menu item
construction. -/
inductive Ev where
  | lockWrite
  | unlockWrite
  | assign
  | save
  | prompt
  | logError
  | lockRead
  | readField (name : String)
  | buildItem (label : String)
  | unlockRead
deriving DecidableEq, Repr

/-- Embeds the non-`nocustom` expansion of `@customhandler` in
`tray_config_item_radio` (tray.rs lines 135-147): run `ask_custom_number`
(its outcome is the `prompt` argument, an `Except` mirroring
`Result<Option<u32>, _>`); on `Ok(Some(number))` assign the number and
await `config.save()`; on `Ok(None)` (user cancelled) do nothing; on
`Err(err)` log the error and do nothing. The function is total: no
outcome escapes as a crash. -/
def customhandler (set : Config → Nat → Config) (cfg : Config)
    (prompt : Except String (Option Nat)) : Config × List Ev :=
  match prompt with
  | Except.ok (some number) => (set cfg number, [Ev.prompt, Ev.assign, Ev.save])
  | Except.ok none => (cfg, [Ev.prompt])
  | Except.error _ => (cfg, [Ev.prompt, Ev.logError])

/-- Embeds the `action` closure generated by `tray_config_item_radio`
when the custom entry is enabled (tray.rs lines 164-176): acquire the
write lock; if `selection >= values.len()` run the custom handler,
otherwise assign `values[selection].1` and await `config.save()`; the
write guard drops at the end of the block. Returns the resulting
configuration and the event trace in program order. -/
def tray_config_item_radio_action (set : Config → Nat → Config)
    (values : List (TrayMultipleOption Nat)) (selection : Nat) (cfg : Config)
    (prompt : Except String (Option Nat)) : Config × List Ev :=
  if h : selection ≥ values.length then
    let r := customhandler set cfg prompt
    (r.1, Ev.lockWrite :: r.2 ++ [Ev.unlockWrite])
  else
    (set cfg (values.get ⟨selection, by omega⟩).value,
     [Ev.lockWrite, Ev.assign, Ev.save, Ev.unlockWrite])

/-- Embeds the `action` closure generated by `tray_config_item_radio`
with the `nocustom` marker (tray.rs lines 133 and 164-176): identical to
`tray_config_item_radio_action` except that the `@customhandler` branch
expands to the empty statement, so an out-of-bounds selection does
nothing under the write lock. -/
def tray_config_item_radio_action_nocustom {α : Type}
    (set : Config → α → Config) (values : List (TrayMultipleOption α))
    (selection : Nat) (cfg : Config) : Config × List Ev :=
  if h : selection ≥ values.length then
    (cfg, [Ev.lockWrite, Ev.unlockWrite])
  else
    (set cfg (values.get ⟨selection, by omega⟩).value,
     [Ev.lockWrite, Ev.assign, Ev.save, Ev.unlockWrite])

/-- The four configuration fields bound to radio groups in
`TrayIcon::menu` (tray.rs lines 217-269). -/
inductive ConfigKey where
  | framerate
  | replay_duration_secs
  | quality
  | container
deriving DecidableEq, Repr

/-- Dispatches a radio-group selection to the reconciler of the given
configuration field exactly as `TrayIcon::menu` wires them (tray.rs lines
217-269): framerate and duration allow a custom value, quality and
container are built with `nocustom`. -/
def radioSelect (key : ConfigKey) (selection : Nat) (cfg : Config)
    (prompt : Except String (Option Nat)) : Config × List Ev :=
  match key with
  | ConfigKey.framerate =>
      tray_config_item_radio_action (fun c n => { c with framerate := n })
        framerateValues selection cfg prompt
  | ConfigKey.replay_duration_secs =>
      tray_config_item_radio_action (fun c n => { c with replay_duration_secs := n })
        durationValues selection cfg prompt
  | ConfigKey.quality =>
      tray_config_item_radio_action_nocustom (fun c q => { c with quality := q })
        qualityValues selection cfg
  | ConfigKey.container =>
      tray_config_item_radio_action_nocustom (fun c k => { c with container := k })
        containerValues selection cfg

/-- Embeds `ActionEvent` (sent on the `tray_event_tx` channel), the
closed set of outbound events the tray dispatches to the main loop. -/
inductive ActionEvent where
  | SaveReplay
  | ChangeReplayPath
  | Quit
deriving DecidableEq, Repr

/-- Tags identifying which callback a `StandardItem` carries in the menu
model (the boxed closures of tray.rs lines 270-282, 300-313, 322-335 and
338-351). -/
inductive ActKind where
  | saveReplay
  | path
  | about
  | quit
deriving DecidableEq, Repr

/-- Embeds `tokio::sync::mpsc::Sender::send(..).await`: with a live
receiver the event is delivered; with the channel closed the send
returns an error. -/
def channel_send (channelOpen : Bool) (event : ActionEvent) :
    Except String (List ActionEvent) :=
  if channelOpen then Except.ok [event] else Except.error "SendError: channel closed"

/-- Result of running a `StandardItem` activate callback: the (possibly
updated) configuration, the events delivered on the channel, and how many
local modal interactions were shown. -/
structure ActivateResult where
  config : Config
  sent : List ActionEvent
  modalPrompts : Nat
deriving DecidableEq, Repr

/-- Embeds the "Path" activate closure (tray.rs lines 270-282): it only
does `action_event_tx.send(ActionEvent::ChangeReplayPath).await.unwrap()`;
the `unwrap` turns a send error into an abrupt callback failure, modelled
as `Except.error`. It never touches the configuration and opens no modal. -/
def pathActivate (cfg : Config) (channelOpen : Bool) :
    Except String ActivateResult :=
  match channel_send channelOpen ActionEvent.ChangeReplayPath with
  | Except.ok sent => Except.ok ⟨cfg, sent, 0⟩
  | Except.error e => Except.error e

/-- Embeds the "Save replay" activate closure (tray.rs lines 300-313):
`tx_clone.send(ActionEvent::SaveReplay).await.unwrap()`. -/
def saveReplayActivate (cfg : Config) (channelOpen : Bool) :
    Except String ActivateResult :=
  match channel_send channelOpen ActionEvent.SaveReplay with
  | Except.ok sent => Except.ok ⟨cfg, sent, 0⟩
  | Except.error e => Except.error e

/-- Embeds the "Quit" activate closure (tray.rs lines 338-351):
`tx_clone.send(ActionEvent::Quit).await.unwrap()`. -/
def quitActivate (cfg : Config) (channelOpen : Bool) :
    Except String ActivateResult :=
  match channel_send channelOpen ActionEvent.Quit with
  | Except.ok sent => Except.ok ⟨cfg, sent, 0⟩
  | Except.error e => Except.error e

/-- The rendered menu tree handed to ksni, abstracted to what the claims
talk about: `StandardItem` (label, icon, callback tag), separators,
`SubMenu` nodes, and a `RadioGroup` (selected index, option labels in
order, bound configuration field). -/
inductive TrayMenuItem where
  | standard (label : String) (icon : String) (act : ActKind)
  | separator
  | sub (label : String) (icon : String) (items : List TrayMenuItem)
  | radio (selected : Nat) (options : List String) (key : ConfigKey)
deriving Repr

/-- Embeds `enum TrayConfigItem` (tray.rs lines 45-67), with closures
replaced by the field / callback tags they act on. -/
inductive TrayConfigItem where
  | Multiple (label : String) (icon : String) (optionLabels : List String)
      (initial : Nat) (showCustom : Bool) (key : ConfigKey)
  | Toggle (label : String) (icon : String)
  | Custom (label : String) (icon : String) (act : ActKind)
deriving Repr

/-- Embeds `impl Into<MenuItem<T>> for TrayConfigItem` (tray.rs lines
69-127): `Multiple` becomes a `SubMenu` holding one `RadioGroup` whose
options get a trailing "Custom..." entry exactly when `show_custom` is
set (lines 89-102); `Toggle` hits `todo!` and panics, modelled as
`Except.error`; `Custom` becomes a `StandardItem`. -/
def intoMenuItem : TrayConfigItem → Except String TrayMenuItem
  | TrayConfigItem.Multiple label icon optionLabels initial showCustom key =>
      Except.ok (TrayMenuItem.sub label icon
        [TrayMenuItem.radio initial
          (if showCustom then optionLabels ++ ["Custom..."] else optionLabels) key])
  | TrayConfigItem.Toggle _ _ =>
      Except.error "todo!: Implement toggle config menu item type"
  | TrayConfigItem.Custom label icon act =>
      Except.ok (TrayMenuItem.standard label icon act)

/-- Embeds the `settings_menu` vector of `TrayIcon::menu` (tray.rs lines
216-283): the four radio groups built by `tray_config_item_radio` (custom
enabled for framerate and duration only) followed by the "Path" item. -/
def settings_menu (cfg : Config) : Except String (List TrayMenuItem) := do
  let framerateItem ← intoMenuItem (TrayConfigItem.Multiple "Framerate" "speedometer"
      (framerateValues.map TrayMultipleOption.label)
      (initial_state framerateValues cfg.framerate) true ConfigKey.framerate)
  let durationItem ← intoMenuItem (TrayConfigItem.Multiple "Duration" "clock"
      (durationValues.map TrayMultipleOption.label)
      (initial_state durationValues cfg.replay_duration_secs) true
      ConfigKey.replay_duration_secs)
  let qualityItem ← intoMenuItem (TrayConfigItem.Multiple "Quality" "star-new-symbolic"
      (qualityValues.map TrayMultipleOption.label)
      (initial_state qualityValues cfg.quality) false ConfigKey.quality)
  let containerItem ← intoMenuItem (TrayConfigItem.Multiple "Container" "archive-extract"
      (containerValues.map TrayMultipleOption.label)
      (initial_state containerValues cfg.container) false ConfigKey.container)
  let pathItem ← intoMenuItem (TrayConfigItem.Custom "Path" "inode-directory" ActKind.path)
  pure [framerateItem, durationItem, qualityItem, containerItem, pathItem]

/-- Embeds the body of `TrayIcon::menu` (tray.rs lines 210-353): the
top-level vector is "Save replay", a separator, the "Settings" submenu,
"About", a separator, and "Quit". -/
def menu (cfg : Config) : Except String (List TrayMenuItem) := do
  let settings ← settings_menu cfg
  let aboutItem ← intoMenuItem (TrayConfigItem.Custom "About" "help-about" ActKind.about)
  pure [TrayMenuItem.standard "Save replay" "document-save" ActKind.saveReplay,
        TrayMenuItem.separator,
        TrayMenuItem.sub "Settings" "configure" settings,
        aboutItem,
        TrayMenuItem.separator,
        TrayMenuItem.standard "Quit" "gtk-quit" ActKind.quit]

/-- Event trace of one evaluation of `TrayIcon::menu` in program order
(tray.rs lines 210-353): line 214 binds the `RwLockReadGuard` to a local
named `config`; each radio group then reads its field through that guard
while its item is built; the outer items are built afterwards; the guard
is dropped only when the function returns, so `unlockRead` is the final
event. -/
def menuTrace : List Ev :=
  [Ev.lockRead,
   Ev.readField "framerate", Ev.buildItem "Framerate",
   Ev.readField "replay_duration_secs", Ev.buildItem "Duration",
   Ev.readField "quality", Ev.buildItem "Quality",
   Ev.readField "container", Ev.buildItem "Container",
   Ev.buildItem "Path",
   Ev.buildItem "Save replay",
   Ev.buildItem "Settings",
   Ev.buildItem "About",
   Ev.buildItem "Quit",
   Ev.unlockRead]

/-- Scans a trace and reports whether any menu item is built while the
configuration read lock is held (state: lock currently held, violation
seen so far). -/
def buildWhileReadLocked (tr : List Ev) : Bool :=
  (tr.foldl (fun st e =>
      match e with
      | Ev.lockRead => (true, st.2)
      | Ev.unlockRead => (false, st.2)
      | Ev.buildItem _ => (st.1, st.2 || st.1)
      | _ => st) (false, false)).2

/-- Reports whether a write-lock trace awaits `save` before the write
lock is released: the first `save` index precedes the first
`unlockWrite` index. -/
def savePrecedesUnlock (tr : List Ev) : Bool :=
  match tr.indexOf? Ev.save, tr.indexOf? Ev.unlockWrite with
  | some i, some j => i < j
  | _, _ => false

/-- Specification-side predicate, written from the claim's words for the
persistence-ordering property: on a trace that assigns a field, `save`
must occur (exactly once) before the write lock is released; on a trace
with no assignment, `save` must not occur. -/
def persistenceOrderingOk (tr : List Ev) : Bool :=
  if tr.contains Ev.assign then
    tr.count Ev.save == 1 && savePrecedesUnlock tr
  else
    !(tr.contains Ev.save)

/-- A sample configuration used by witness theorems: framerate 45
(matching no framerate entry), duration 60, quality High, container MKV. -/
def sampleConfig : Config :=
  ⟨45, 60, Quality.High, Container.MKV, "/replays"⟩

/-- C1: the initial selected index of an option group is the index of the
first entry whose value equals the current configuration value (linear
scan, first match wins), and the length of the entry list when no entry
matches; in particular with current quality High and entries
[Medium, High, VeryHigh, Ultra] it is 1. -/
theorem initial_state_first_match {α : Type} [DecidableEq α]
    (values : List (TrayMultipleOption α)) (current : α) :
    initial_state values current = specFirstMatchIndex values current ∧
    initial_state qualityValues Quality.High = 1 := by
  constructor
  · induction values with
    | nil => rfl
    | cons e rest ih =>
      unfold initial_state specFirstMatchIndex
      rw [List.findIdx?_cons, List.findIdx?_succ]
      by_cases h : e.value = current
      · simp [h]
      · simp only [beq_iff_eq, h, if_false, List.length_cons]
        cases h2 : rest.findIdx? (fun element => element.value == current) with
        | none =>
          unfold initial_state at ih
          simp [h2] at ih
          simp [ih]
        | some i =>
          unfold initial_state at ih
          simp [h2] at ih
          simp [ih]
  · decide

/-- C2: invoked with the custom sentinel index (at or past the entry
count) on a custom-enabled group, the reconciler runs the
ask-for-a-number interaction under the write lock; a provided value is
assigned and persisted, a cancellation leaves the field unchanged with no
save, and a prompt failure is logged and leaves the field unchanged with
no save — in every case the function returns normally. -/
theorem radio_custom_sentinel_behavior (set : Config → Nat → Config)
    (values : List (TrayMultipleOption Nat)) (selection : Nat) (cfg : Config)
    (h : selection ≥ values.length) :
    (∀ number, tray_config_item_radio_action set values selection cfg
        (Except.ok (some number)) =
      (set cfg number,
       [Ev.lockWrite, Ev.prompt, Ev.assign, Ev.save, Ev.unlockWrite])) ∧
    tray_config_item_radio_action set values selection cfg (Except.ok none) =
      (cfg, [Ev.lockWrite, Ev.prompt, Ev.unlockWrite]) ∧
    (∀ err, tray_config_item_radio_action set values selection cfg
        (Except.error err) =
      (cfg, [Ev.lockWrite, Ev.prompt, Ev.logError, Ev.unlockWrite])) := by
  refine ⟨fun number => ?_, ?_, fun err => ?_⟩ <;>
    simp [tray_config_item_radio_action, customhandler, h]

/-- C2 witness: scenario B — framerate 45 is unmatched, the sentinel
index 2 is chosen and the user enters 45; the field is written and saved. -/
theorem radio_custom_sentinel_behavior_witness :
    tray_config_item_radio_action (fun c n => { c with framerate := n })
        framerateValues 2 sampleConfig (Except.ok (some 45)) =
      (sampleConfig,
       [Ev.lockWrite, Ev.prompt, Ev.assign, Ev.save, Ev.unlockWrite]) := by
  exact (radio_custom_sentinel_behavior (fun c n => { c with framerate := n })
    framerateValues 2 sampleConfig (by decide)).1 45

/-- C3: invoked with an in-bounds selected index, the reconciler takes
the write lock (the trace starts with `lockWrite`) and assigns the value
of the entry at that index to the configured field; this holds for the
custom-enabled and the nocustom variant alike. -/
theorem radio_in_bounds_assigns {α : Type} (setN : Config → Nat → Config)
    (valsN : List (TrayMultipleOption Nat)) (selN : Nat) (cfgN : Config)
    (prompt : Except String (Option Nat)) (hN : selN < valsN.length)
    (setA : Config → α → Config) (valsA : List (TrayMultipleOption α))
    (selA : Nat) (cfgA : Config) (hA : selA < valsA.length) :
    tray_config_item_radio_action setN valsN selN cfgN prompt =
      (setN cfgN (valsN.get ⟨selN, hN⟩).value,
       [Ev.lockWrite, Ev.assign, Ev.save, Ev.unlockWrite]) ∧
    tray_config_item_radio_action_nocustom setA valsA selA cfgA =
      (setA cfgA (valsA.get ⟨selA, hA⟩).value,
       [Ev.lockWrite, Ev.assign, Ev.save, Ev.unlockWrite]) := by
  constructor
  · unfold tray_config_item_radio_action
    rw [dif_neg (by omega)]
  · unfold tray_config_item_radio_action_nocustom
    rw [dif_neg (by omega)]

/-- C3 witness: selecting index 1 of the framerate group writes 60, and
selecting index 1 of the quality group writes High. -/
theorem radio_in_bounds_assigns_witness :
    tray_config_item_radio_action (fun c n => { c with framerate := n })
        framerateValues 1 sampleConfig (Except.ok none) =
      ({ sampleConfig with framerate := 60 },
       [Ev.lockWrite, Ev.assign, Ev.save, Ev.unlockWrite]) ∧
    tray_config_item_radio_action_nocustom (fun c q => { c with quality := q })
        qualityValues 1 sampleConfig =
      ({ sampleConfig with quality := Quality.High },
       [Ev.lockWrite, Ev.assign, Ev.save, Ev.unlockWrite]) := by
  exact radio_in_bounds_assigns (fun c n => { c with framerate := n })
    framerateValues 1 sampleConfig (Except.ok none) (by decide)
    (fun c q => { c with quality := q }) qualityValues 1 sampleConfig (by decide)

/-- C4: on every path of every radio-group reconciler, a path that
assigns a field performs exactly one `save` and the save precedes the
release of the write lock, while a path that assigns nothing performs no
`save` at all. -/
theorem radio_save_before_unlock (key : ConfigKey) (selection : Nat)
    (cfg : Config) (prompt : Except String (Option Nat)) :
    persistenceOrderingOk (radioSelect key selection cfg prompt).2 = true := by
  rcases prompt with e | o
  · cases key <;>
      simp only [radioSelect, tray_config_item_radio_action,
        tray_config_item_radio_action_nocustom, customhandler] <;>
      split <;> rfl
  · rcases o with _ | n <;> cases key <;>
      simp only [radioSelect, tray_config_item_radio_action,
        tray_config_item_radio_action_nocustom, customhandler] <;>
      split <;> rfl

/-- C5: for every configuration, the menu is produced in the fixed order
"Save replay", separator, "Settings" (framerate, duration, quality,
container, "Path"), "About", separator, "Quit", with the "Custom..."
sentinel appended exactly to the framerate and duration option lists. -/
theorem menu_fixed_order (cfg : Config) :
    menu cfg = Except.ok
      [TrayMenuItem.standard "Save replay" "document-save" ActKind.saveReplay,
       TrayMenuItem.separator,
       TrayMenuItem.sub "Settings" "configure"
         [TrayMenuItem.sub "Framerate" "speedometer"
            [TrayMenuItem.radio (initial_state framerateValues cfg.framerate)
               ["30", "60", "Custom..."] ConfigKey.framerate],
          TrayMenuItem.sub "Duration" "clock"
            [TrayMenuItem.radio (initial_state durationValues cfg.replay_duration_secs)
               ["30s", "1min", "2min", "3min", "5min", "Custom..."]
               ConfigKey.replay_duration_secs],
          TrayMenuItem.sub "Quality" "star-new-symbolic"
            [TrayMenuItem.radio (initial_state qualityValues cfg.quality)
               ["Medium", "High", "Very high", "Ultra"] ConfigKey.quality],
          TrayMenuItem.sub "Container" "archive-extract"
            [TrayMenuItem.radio (initial_state containerValues cfg.container)
               ["MKV", "MP4", "WEBM", "FLV"] ConfigKey.container],
          TrayMenuItem.standard "Path" "inode-directory" ActKind.path],
       TrayMenuItem.standard "About" "help-about" ActKind.about,
       TrayMenuItem.separator,
       TrayMenuItem.standard "Quit" "gtk-quit" ActKind.quit] := by
  rfl

/-- C6: with a live channel, activating "Quit" delivers exactly the one
event Quit and activating "Path" delivers exactly the one event
ChangeReplayPath; neither changes the configuration and neither shows a
local modal interaction. -/
theorem path_quit_single_event (cfg : Config) :
    quitActivate cfg true = Except.ok ⟨cfg, [ActionEvent.Quit], 0⟩ ∧
    pathActivate cfg true = Except.ok ⟨cfg, [ActionEvent.ChangeReplayPath], 0⟩ := by
  exact ⟨rfl, rfl⟩

/-- C7: with the channel closed, the send inside each event-dispatching
callback ("Save replay", "Path", "Quit") fails and the `unwrap` turns it
into an abrupt callback failure; no branch absorbs, logs, or converts it
into a recoverable result. -/
theorem send_failure_aborts_callback (cfg : Config) :
    saveReplayActivate cfg false = Except.error "SendError: channel closed" ∧
    pathActivate cfg false = Except.error "SendError: channel closed" ∧
    quitActivate cfg false = Except.error "SendError: channel closed" := by
  exact ⟨rfl, rfl, rfl⟩

/-- C8 counterexample: the claim that the menu builder's read-lock scope
covers only the snapshot read is false — menu items are built while the
read lock is held. -/
theorem menu_read_lock_counterexample :
    ¬ buildWhileReadLocked menuTrace = false := by
  decide

/-- C8 amended: the menu builder acquires the read lock once at the start
of `menu`, reads the configuration fields and builds every menu item
while the lock is held, and the read guard is released only when the
function returns (the final event of the trace). -/
theorem menu_read_lock_held_across_assembly :
    menuTrace.head? = some Ev.lockRead ∧
    menuTrace.getLast? = some Ev.unlockRead ∧
    buildWhileReadLocked menuTrace = true ∧
    menuTrace.count Ev.lockRead = 1 ∧
    menuTrace.count Ev.unlockRead = 1 := by
  decide

/-- C9: the quality and container groups are built with the custom entry
disabled, so an out-of-bounds selection takes the write lock, does
nothing (no field assignment, no prompt, no save), and releases it. -/
theorem nocustom_out_of_bounds_noop (cfg : Config) (selection : Nat)
    (prompt : Except String (Option Nat))
    (hq : selection ≥ qualityValues.length)
    (hc : selection ≥ containerValues.length) :
    radioSelect ConfigKey.quality selection cfg prompt =
      (cfg, [Ev.lockWrite, Ev.unlockWrite]) ∧
    radioSelect ConfigKey.container selection cfg prompt =
      (cfg, [Ev.lockWrite, Ev.unlockWrite]) := by
  constructor
  · simp [radioSelect, tray_config_item_radio_action_nocustom, hq]
  · simp [radioSelect, tray_config_item_radio_action_nocustom, hc]

/-- C9 witness: selection 4 is one past the last quality and container
entry; both reconcilers leave the configuration untouched and never save. -/
theorem nocustom_out_of_bounds_noop_witness :
    radioSelect ConfigKey.quality 4 sampleConfig (Except.ok none) =
      (sampleConfig, [Ev.lockWrite, Ev.unlockWrite]) ∧
    radioSelect ConfigKey.container 4 sampleConfig (Except.ok none) =
      (sampleConfig, [Ev.lockWrite, Ev.unlockWrite]) := by
  exact nocustom_out_of_bounds_noop sampleConfig 4 (Except.ok none)
    (by decide) (by decide)

/-- C10: converting a Toggle item panics (the `todo!` branch, modelled as
an error), but the menu builder only ever constructs Multiple and Custom
items, so building the menu succeeds for every configuration and the
panicking branch is unreachable from `TrayIcon::menu`. -/
theorem toggle_unreachable :
    (∀ label icon, intoMenuItem (TrayConfigItem.Toggle label icon) =
        Except.error "todo!: Implement toggle config menu item type") ∧
    ∀ cfg : Config, ∃ items, menu cfg = Except.ok items := by
  exact ⟨fun label icon => rfl, fun cfg => ⟨_, rfl⟩⟩

end TrayPlay
